import Mathlib

/-!
Verification of the DMRC metro ridership impact calculator
(`src/ridership.py`).

The Python source computes with real-number formulas (float arithmetic);
the embedding below models that arithmetic exactly over `ℚ`, which is the
arithmetic the specification reasons in.  Python's `int(...)` conversion
truncates toward zero, modelled by `truncQ`.  Slider and number inputs are
integers; the formulas are their arithmetic extension to all of `ℤ`.
-/

namespace DMRC

/-- The elasticity table from `ELASTICITIES` in `src/ridership.py`
(lines 18-24): a fixed mapping from factor name to a signed coefficient. -/
def ELASTICITIES : String → ℚ
  | "feeder_frequency" => 0.5
  | "last_mile_wait_time" => -0.8
  | "service_availability" => 0.3
  | "feeder_cost" => -0.4
  | "integration_quality" => 0.6
  | _ => 0

/-- The input snapshot read by `calculate_ridership_impact` and the
scenario loop: the module-level widget values of `src/ridership.py`
(lines 31-81).  All are integer-valued widgets; the calculator's formulas
extend arithmetically to any integers. -/
structure Params where
  current_ridership : ℤ
  baseline_frequency : ℤ
  baseline_wait : ℤ
  freq_improvement : ℤ
  wait_reduction : ℤ
  coverage_improvement : ℤ
  cost_reduction : ℤ
  integration_improvement : ℤ
deriving DecidableEq

/-- Truncation toward zero, the behaviour of Python's `int()` on a number. -/
def truncQ (x : ℚ) : ℤ := if 0 ≤ x then ⌊x⌋ else ⌈x⌉

/-- Line 86: `freq_impact = (freq_improvement / 100) * ELASTICITIES["feeder_frequency"]`. -/
def freq_impact (p : Params) : ℚ :=
  ((p.freq_improvement : ℚ) / 100) * ELASTICITIES ("feeder_frequency")

/-- Line 87: `wait_impact = (wait_reduction / 100) * abs(ELASTICITIES["last_mile_wait_time"])`. -/
def wait_impact (p : Params) : ℚ :=
  ((p.wait_reduction : ℚ) / 100) * |ELASTICITIES ("last_mile_wait_time")|

/-- Line 88: `coverage_impact = (coverage_improvement / 100) * ELASTICITIES["service_availability"]`. -/
def coverage_impact (p : Params) : ℚ :=
  ((p.coverage_improvement : ℚ) / 100) * ELASTICITIES ("service_availability")

/-- Line 89: `cost_impact = (cost_reduction / 100) * abs(ELASTICITIES["feeder_cost"])`. -/
def cost_impact (p : Params) : ℚ :=
  ((p.cost_reduction : ℚ) / 100) * |ELASTICITIES ("feeder_cost")|

/-- Line 90: `integration_impact = (integration_improvement / 100) * ELASTICITIES["integration_quality"]`. -/
def integration_impact (p : Params) : ℚ :=
  ((p.integration_improvement : ℚ) / 100) * ELASTICITIES ("integration_quality")

/-- Line 93: the unclamped total, the plain sum of the five impact terms. -/
def total_impact_raw (p : Params) : ℚ :=
  freq_impact p + wait_impact p + coverage_impact p + cost_impact p + integration_impact p

/-- Lines 96-97: `if total_impact > 0.5: total_impact = 0.5 + (total_impact - 0.5) * 0.7`. -/
def apply_diminishing (x : ℚ) : ℚ :=
  if x > 0.5 then 0.5 + (x - 0.5) * 0.7 else x

/-- The record returned by `calculate_ridership_impact` (lines 103-112). -/
structure ImpactResult where
  freq_impact : ℚ
  wait_impact : ℚ
  coverage_impact : ℚ
  cost_impact : ℚ
  integration_impact : ℚ
  total_percentage : ℚ
  new_ridership : ℤ
  absolute_increase : ℤ
deriving DecidableEq

/-- `calculate_ridership_impact` (lines 84-112 of `src/ridership.py`):
five elasticity terms, diminishing-returns clamp, projection of ridership
with `int()` truncation.  `new_ridership` and `absolute_increase` are each
truncated from the float expressions on lines 99-100, as in the source. -/
def calculate_ridership_impact (p : Params) : ImpactResult :=
  let total_impact := apply_diminishing (total_impact_raw p)
  let new_ridership := (p.current_ridership : ℚ) * (1 + total_impact)
  let absolute_increase := new_ridership - (p.current_ridership : ℚ)
  let percentage_increase := total_impact * 100
  { freq_impact := freq_impact p * 100
    wait_impact := wait_impact p * 100
    coverage_impact := coverage_impact p * 100
    cost_impact := cost_impact p * 100
    integration_impact := integration_impact p * 100
    total_percentage := percentage_increase
    new_ridership := truncQ new_ridership
    absolute_increase := truncQ absolute_increase }

/-- The fixed scenario table (lines 190-195). -/
def scenarios : List (String × ℤ) :=
  [("Current", 0), ("Basic Improvement", 15),
   ("Moderate Improvement", 35), ("Comprehensive Improvement", 60)]

/-- One row of the scenario-comparison output (the dict appended on
lines 204-208: keys `Scenario`, `Ridership`, `% Increase`). -/
structure ScenarioRow where
  scenario : String
  ridership : ℤ
  percent_increase : ℚ
deriving DecidableEq

/-- One iteration of the loop on lines 198-208: for `Current` the row is
`(current_ridership, 0)` verbatim (the live calculator result computed on
line 200 is dropped by the ternaries on lines 206-207); any other preset
uses the simplified formula of lines 201-202. -/
def scenario_row (p : Params) (scenario : String) (improvement : ℤ) : ScenarioRow :=
  if scenario = "Current" then
    { scenario := scenario
      ridership := p.current_ridership
      percent_increase := 0 }
  else
    { scenario := scenario
      ridership := truncQ ((p.current_ridership : ℚ) * (1 + (improvement : ℚ) * 0.004))
      percent_increase := (improvement : ℚ) * 0.4 }

/-- `scenario_results` (lines 197-208): the rows in preset order. -/
def scenario_results (p : Params) : List ScenarioRow :=
  scenarios.map (fun si => scenario_row p si.1 si.2)

/-- The spec's end-to-end example parameter set (also the source's default
slider values): ridership 100000, improvements 50/30/25/15/40. -/
def exampleParams : Params :=
  { current_ridership := 100000
    baseline_frequency := 4
    baseline_wait := 12
    freq_improvement := 50
    wait_reduction := 30
    coverage_improvement := 25
    cost_reduction := 15
    integration_improvement := 40 }

example : (calculate_ridership_impact exampleParams).total_percentage = 75.55 := by
  norm_num [calculate_ridership_impact, apply_diminishing, total_impact_raw, freq_impact,
    wait_impact, coverage_impact, cost_impact, integration_impact, ELASTICITIES, exampleParams, abs_of_nonneg, abs_of_nonpos]

example : (calculate_ridership_impact exampleParams).new_ridership = 175550 := by
  norm_num [calculate_ridership_impact, apply_diminishing, total_impact_raw, freq_impact,
    wait_impact, coverage_impact, cost_impact, integration_impact, ELASTICITIES, exampleParams, abs_of_nonneg, abs_of_nonpos,
    truncQ]

example : (calculate_ridership_impact exampleParams).absolute_increase = 75550 := by
  norm_num [calculate_ridership_impact, apply_diminishing, total_impact_raw, freq_impact,
    wait_impact, coverage_impact, cost_impact, integration_impact, ELASTICITIES, exampleParams, abs_of_nonneg, abs_of_nonpos,
    truncQ]

example : total_impact_raw exampleParams = 0.865 := by
  norm_num [total_impact_raw, freq_impact, wait_impact, coverage_impact, cost_impact,
    integration_impact, ELASTICITIES, exampleParams, abs_of_nonneg, abs_of_nonpos]

/-! ### Helper lemmas about the embedded operations -/

theorem truncQ_of_nonneg {x : ℚ} (h : 0 ≤ x) : truncQ x = ⌊x⌋ := if_pos h

theorem truncQ_of_nonpos {x : ℚ} (h : x ≤ 0) : truncQ x = ⌈x⌉ := by
  unfold truncQ
  split_ifs with h0
  · have hx : x = 0 := le_antisymm h h0
    subst hx; simp
  · rfl

theorem truncQ_intCast (n : ℤ) : truncQ ((n : ℚ)) = n := by
  unfold truncQ
  split_ifs <;> simp

theorem apply_diminishing_mono {x y : ℚ} (h : x ≤ y) :
    apply_diminishing x ≤ apply_diminishing y := by
  unfold apply_diminishing
  split_ifs <;> linarith

theorem apply_diminishing_nonneg {x : ℚ} (h : 0 ≤ x) : 0 ≤ apply_diminishing x := by
  unfold apply_diminishing
  split_ifs <;> linarith

/-- Truncation distributes over the projection formula: for a nonnegative
impact `t`, truncating `n * (1 + t)` is truncating `n * t` plus `n`,
whatever the sign of `n`. -/
theorem truncQ_mul_one_add (n : ℤ) (t : ℚ) (ht : 0 ≤ t) :
    truncQ ((n : ℚ) * (1 + t)) = truncQ ((n : ℚ) * t) + n := by
  have harg : (n : ℚ) * (1 + t) = (n : ℚ) * t + (n : ℤ) := by ring
  rcases le_or_lt 0 n with hn | hn
  · have hnq : (0 : ℚ) ≤ (n : ℚ) := by exact_mod_cast hn
    have h1 : (0 : ℚ) ≤ (n : ℚ) * t := mul_nonneg hnq ht
    have h2 : (0 : ℚ) ≤ (n : ℚ) * (1 + t) := mul_nonneg hnq (by linarith)
    rw [truncQ_of_nonneg h2, truncQ_of_nonneg h1, harg, Int.floor_add_int]
  · have hnq : (n : ℚ) ≤ 0 := by exact_mod_cast hn.le
    have h1 : (n : ℚ) * t ≤ 0 := mul_nonpos_iff.mpr (Or.inr ⟨hnq, ht⟩)
    have h2 : (n : ℚ) * (1 + t) ≤ 0 := mul_nonpos_iff.mpr (Or.inr ⟨hnq, by linarith⟩)
    rw [truncQ_of_nonpos h2, truncQ_of_nonpos h1, harg, Int.ceil_add_int]

theorem calc_freq_eq (p : Params) :
    (calculate_ridership_impact p).freq_impact = freq_impact p * 100 := rfl

theorem calc_wait_eq (p : Params) :
    (calculate_ridership_impact p).wait_impact = wait_impact p * 100 := rfl

theorem calc_coverage_eq (p : Params) :
    (calculate_ridership_impact p).coverage_impact = coverage_impact p * 100 := rfl

theorem calc_cost_eq (p : Params) :
    (calculate_ridership_impact p).cost_impact = cost_impact p * 100 := rfl

theorem calc_integration_eq (p : Params) :
    (calculate_ridership_impact p).integration_impact = integration_impact p * 100 := rfl

theorem calc_total_percentage_eq (p : Params) :
    (calculate_ridership_impact p).total_percentage =
      apply_diminishing (total_impact_raw p) * 100 := rfl

theorem calc_new_ridership_eq (p : Params) :
    (calculate_ridership_impact p).new_ridership =
      truncQ ((p.current_ridership : ℚ) *
        (1 + apply_diminishing (total_impact_raw p))) := rfl

theorem calc_absolute_increase_eq (p : Params) :
    (calculate_ridership_impact p).absolute_increase =
      truncQ ((p.current_ridership : ℚ) *
          (1 + apply_diminishing (total_impact_raw p)) -
        (p.current_ridership : ℚ)) := rfl

theorem freq_impact_nonneg (p : Params) (h : 0 ≤ p.freq_improvement) :
    0 ≤ freq_impact p := by
  unfold freq_impact
  have : (0 : ℚ) ≤ (p.freq_improvement : ℚ) := by exact_mod_cast h
  exact mul_nonneg (by positivity) (by norm_num [ELASTICITIES])

theorem wait_impact_nonneg (p : Params) (h : 0 ≤ p.wait_reduction) :
    0 ≤ wait_impact p := by
  unfold wait_impact
  have : (0 : ℚ) ≤ (p.wait_reduction : ℚ) := by exact_mod_cast h
  exact mul_nonneg (by positivity) (abs_nonneg _)

theorem coverage_impact_nonneg (p : Params) (h : 0 ≤ p.coverage_improvement) :
    0 ≤ coverage_impact p := by
  unfold coverage_impact
  have : (0 : ℚ) ≤ (p.coverage_improvement : ℚ) := by exact_mod_cast h
  exact mul_nonneg (by positivity) (by norm_num [ELASTICITIES])

theorem cost_impact_nonneg (p : Params) (h : 0 ≤ p.cost_reduction) :
    0 ≤ cost_impact p := by
  unfold cost_impact
  have : (0 : ℚ) ≤ (p.cost_reduction : ℚ) := by exact_mod_cast h
  exact mul_nonneg (by positivity) (abs_nonneg _)

theorem integration_impact_nonneg (p : Params) (h : 0 ≤ p.integration_improvement) :
    0 ≤ integration_impact p := by
  unfold integration_impact
  have : (0 : ℚ) ≤ (p.integration_improvement : ℚ) := by exact_mod_cast h
  exact mul_nonneg (by positivity) (by norm_num [ELASTICITIES])

theorem total_impact_raw_nonneg (p : Params)
    (h1 : 0 ≤ p.freq_improvement) (h2 : 0 ≤ p.wait_reduction)
    (h3 : 0 ≤ p.coverage_improvement) (h4 : 0 ≤ p.cost_reduction)
    (h5 : 0 ≤ p.integration_improvement) :
    0 ≤ total_impact_raw p := by
  unfold total_impact_raw
  have a1 := freq_impact_nonneg p h1
  have a2 := wait_impact_nonneg p h2
  have a3 := coverage_impact_nonneg p h3
  have a4 := cost_impact_nonneg p h4
  have a5 := integration_impact_nonneg p h5
  linarith

theorem total_percentage_mono_of_raw_le {p q : Params}
    (h : total_impact_raw p ≤ total_impact_raw q) :
    (calculate_ridership_impact p).total_percentage ≤
      (calculate_ridership_impact q).total_percentage := by
  rw [calc_total_percentage_eq, calc_total_percentage_eq]
  exact mul_le_mul_of_nonneg_right (apply_diminishing_mono h) (by norm_num)

/-! ### Claim theorems -/

/-- C1: each of the five raw impact terms equals `(improvement_pct / 100)`
times the absolute value of that factor's fixed elasticity coefficient,
whose magnitudes are 0.5, 0.8, 0.3, 0.4 and 0.6; in particular the two
negative-elasticity factors (wait time, cost) contribute strictly
positively as their improvement percentage increases. -/
theorem C1_raw_impacts :
    (∀ p : Params,
      freq_impact p = ((p.freq_improvement : ℚ) / 100) * |ELASTICITIES ("feeder_frequency")| ∧
      wait_impact p = ((p.wait_reduction : ℚ) / 100) * |ELASTICITIES ("last_mile_wait_time")| ∧
      coverage_impact p =
        ((p.coverage_improvement : ℚ) / 100) * |ELASTICITIES ("service_availability")| ∧
      cost_impact p = ((p.cost_reduction : ℚ) / 100) * |ELASTICITIES ("feeder_cost")| ∧
      integration_impact p =
        ((p.integration_improvement : ℚ) / 100) * |ELASTICITIES ("integration_quality")|) ∧
    (|ELASTICITIES ("feeder_frequency")| = 0.5 ∧
     |ELASTICITIES ("last_mile_wait_time")| = 0.8 ∧
     |ELASTICITIES ("service_availability")| = 0.3 ∧
     |ELASTICITIES ("feeder_cost")| = 0.4 ∧
     |ELASTICITIES ("integration_quality")| = 0.6) ∧
    (∀ (p : Params) (d : ℤ), 0 < d →
      wait_impact p < wait_impact { p with wait_reduction := p.wait_reduction + d } ∧
      cost_impact p < cost_impact { p with cost_reduction := p.cost_reduction + d }) := by
  refine ⟨fun p => ?_, ?_, fun p d hd => ?_⟩
  · norm_num [freq_impact, wait_impact, coverage_impact, cost_impact, integration_impact,
      ELASTICITIES, abs_of_nonneg, abs_of_nonpos]
  · norm_num [ELASTICITIES, abs_of_nonneg, abs_of_nonpos]
  · have hd' : (0 : ℚ) < (d : ℚ) := by exact_mod_cast hd
    constructor
    · simp only [wait_impact, ELASTICITIES]
      norm_num [abs_of_nonpos]
      linarith
    · simp only [cost_impact, ELASTICITIES]
      norm_num [abs_of_nonpos]
      linarith

/-- Witness for C1 at concrete inputs: raising the wait-time (resp. cost)
improvement by 10 points strictly raises that factor's impact. -/
theorem C1_raw_impacts_witness :
    wait_impact exampleParams <
      wait_impact { exampleParams with wait_reduction := exampleParams.wait_reduction + 10 } ∧
    cost_impact exampleParams <
      cost_impact { exampleParams with cost_reduction := exampleParams.cost_reduction + 10 } :=
  C1_raw_impacts.2.2 exampleParams 10 (by decide)

/-- C2: the unclamped total is the plain sum of the five raw impacts, the
five per-factor percentages in the result always sum to the unclamped
total times 100, and at the default inputs (where the clamp is active,
unclamped total 0.865 > 0.5) that sum, 86.5, strictly exceeds the reported
post-clamp total percentage, 75.55. -/
theorem C2_sum_relation :
    (∀ p : Params,
      total_impact_raw p =
        freq_impact p + wait_impact p + coverage_impact p + cost_impact p +
          integration_impact p) ∧
    (∀ p : Params,
      (calculate_ridership_impact p).freq_impact + (calculate_ridership_impact p).wait_impact +
          (calculate_ridership_impact p).coverage_impact +
          (calculate_ridership_impact p).cost_impact +
          (calculate_ridership_impact p).integration_impact =
        total_impact_raw p * 100) ∧
    0.5 < total_impact_raw exampleParams ∧
    (calculate_ridership_impact exampleParams).freq_impact +
        (calculate_ridership_impact exampleParams).wait_impact +
        (calculate_ridership_impact exampleParams).coverage_impact +
        (calculate_ridership_impact exampleParams).cost_impact +
        (calculate_ridership_impact exampleParams).integration_impact >
      (calculate_ridership_impact exampleParams).total_percentage := by
  refine ⟨fun p => rfl, fun p => ?_, ?_, ?_⟩
  · rw [calc_freq_eq, calc_wait_eq, calc_coverage_eq, calc_cost_eq, calc_integration_eq,
      total_impact_raw]
    ring
  · norm_num [total_impact_raw, freq_impact, wait_impact, coverage_impact, cost_impact,
      integration_impact, ELASTICITIES, exampleParams, abs_of_nonneg, abs_of_nonpos]
  · norm_num [calculate_ridership_impact, apply_diminishing, total_impact_raw, freq_impact,
      wait_impact, coverage_impact, cost_impact, integration_impact, ELASTICITIES,
      exampleParams, abs_of_nonneg, abs_of_nonpos]

/-- C3: the diminishing-returns clamp is the identity up to 0.5 and the
line `0.5 + (x - 0.5) * 0.7` above; inputs with unclamped total exactly
0.5 report a total percentage of 50 (the clamp does not fire at the knee)
and inputs with unclamped total 1 report 85. -/
theorem C3_clamp_shape (x : ℚ) (p q : Params) :
    (x ≤ 0.5 → apply_diminishing x = x) ∧
    (0.5 < x → apply_diminishing x = 0.5 + (x - 0.5) * 0.7) ∧
    (total_impact_raw p = 0.5 → (calculate_ridership_impact p).total_percentage = 50) ∧
    (total_impact_raw q = 1 → (calculate_ridership_impact q).total_percentage = 85) := by
  refine ⟨fun h => ?_, fun h => ?_, fun h => ?_, fun h => ?_⟩
  · rw [apply_diminishing, if_neg (not_lt.mpr h)]
  · rw [apply_diminishing, if_pos h]
  · rw [calc_total_percentage_eq, h]
    norm_num [apply_diminishing]
  · rw [calc_total_percentage_eq, h]
    norm_num [apply_diminishing]

/-- Witness for C3: the clamp fixes 0.3, maps 0.8 onto its damped line,
a 100% frequency improvement alone (raw total exactly 0.5) reports 50%,
and a 200% frequency improvement alone (raw total exactly 1) reports 85%. -/
theorem C3_clamp_shape_witness :
    apply_diminishing 0.3 = 0.3 ∧
    apply_diminishing 0.8 = 0.5 + (0.8 - 0.5) * 0.7 ∧
    (calculate_ridership_impact ⟨100000, 4, 12, 100, 0, 0, 0, 0⟩).total_percentage = 50 ∧
    (calculate_ridership_impact ⟨100000, 4, 12, 200, 0, 0, 0, 0⟩).total_percentage = 85 := by
  refine ⟨?_, ?_, ?_, ?_⟩
  · exact (C3_clamp_shape 0.3 exampleParams exampleParams).1 (by norm_num)
  · exact (C3_clamp_shape 0.8 exampleParams exampleParams).2.1 (by norm_num)
  · exact (C3_clamp_shape 0 ⟨100000, 4, 12, 100, 0, 0, 0, 0⟩ exampleParams).2.2.1
      (by norm_num [total_impact_raw, freq_impact, wait_impact, coverage_impact, cost_impact,
        integration_impact, ELASTICITIES, abs_of_nonneg, abs_of_nonpos])
  · exact (C3_clamp_shape 0 exampleParams ⟨100000, 4, 12, 200, 0, 0, 0, 0⟩).2.2.2
      (by norm_num [total_impact_raw, freq_impact, wait_impact, coverage_impact, cost_impact,
        integration_impact, ELASTICITIES, abs_of_nonneg, abs_of_nonpos])

/-- C5: with all five improvement percentages zero (and nonnegative
current ridership), the clamped total impact is 0, the reported total
percentage is 0, new ridership equals current ridership and the absolute
increase is 0. -/
theorem C5_zero_improvements (p : Params) (_hcr : 0 ≤ p.current_ridership)
    (h1 : p.freq_improvement = 0) (h2 : p.wait_reduction = 0)
    (h3 : p.coverage_improvement = 0) (h4 : p.cost_reduction = 0)
    (h5 : p.integration_improvement = 0) :
    apply_diminishing (total_impact_raw p) = 0 ∧
    (calculate_ridership_impact p).total_percentage = 0 ∧
    (calculate_ridership_impact p).new_ridership = p.current_ridership ∧
    (calculate_ridership_impact p).absolute_increase = 0 := by
  have hraw : total_impact_raw p = 0 := by
    simp [total_impact_raw, freq_impact, wait_impact, coverage_impact, cost_impact,
      integration_impact, h1, h2, h3, h4, h5]
  have hadr : apply_diminishing (total_impact_raw p) = 0 := by
    rw [hraw]; norm_num [apply_diminishing]
  refine ⟨hadr, ?_, ?_, ?_⟩
  · rw [calc_total_percentage_eq, hadr]; ring
  · rw [calc_new_ridership_eq, hadr]
    norm_num [truncQ_intCast]
  · rw [calc_absolute_increase_eq, hadr]
    norm_num [truncQ]

/-- Witness for C5 at ridership 100000 and all-zero improvements. -/
theorem C5_zero_improvements_witness :
    apply_diminishing (total_impact_raw ⟨100000, 4, 12, 0, 0, 0, 0, 0⟩) = 0 ∧
    (calculate_ridership_impact ⟨100000, 4, 12, 0, 0, 0, 0, 0⟩).total_percentage = 0 ∧
    (calculate_ridership_impact ⟨100000, 4, 12, 0, 0, 0, 0, 0⟩).new_ridership =
      (⟨100000, 4, 12, 0, 0, 0, 0, 0⟩ : Params).current_ridership ∧
    (calculate_ridership_impact ⟨100000, 4, 12, 0, 0, 0, 0, 0⟩).absolute_increase = 0 :=
  C5_zero_improvements ⟨100000, 4, 12, 0, 0, 0, 0, 0⟩ (by decide) rfl rfl rfl rfl rfl

/-- C4 counterexample: at current ridership 10 with a -10% frequency
improvement (total impact -0.05), the code reports new_ridership = 9
(trunc of 9.5) but absolute_increase = 0 (trunc of -0.5), which differs
from new_ridership - current_ridership = -1: the claim's identity
`absolute_increase = new_ridership - current_ridership` fails because the
source truncates the two float quantities independently. -/
theorem C4_counterexample :
    (calculate_ridership_impact ⟨10, 4, 12, -10, 0, 0, 0, 0⟩).new_ridership = 9 ∧
    (calculate_ridership_impact ⟨10, 4, 12, -10, 0, 0, 0, 0⟩).absolute_increase = 0 ∧
    (calculate_ridership_impact ⟨10, 4, 12, -10, 0, 0, 0, 0⟩).absolute_increase ≠
      (calculate_ridership_impact ⟨10, 4, 12, -10, 0, 0, 0, 0⟩).new_ridership -
        (⟨10, 4, 12, -10, 0, 0, 0, 0⟩ : Params).current_ridership := by
  have h1 : (calculate_ridership_impact ⟨10, 4, 12, -10, 0, 0, 0, 0⟩).new_ridership = 9 := by
    rw [calc_new_ridership_eq]
    norm_num [total_impact_raw, freq_impact, wait_impact, coverage_impact, cost_impact,
      integration_impact, ELASTICITIES, apply_diminishing, truncQ, abs_of_nonneg,
      abs_of_nonpos]
  have h2 : (calculate_ridership_impact ⟨10, 4, 12, -10, 0, 0, 0, 0⟩).absolute_increase = 0 := by
    rw [calc_absolute_increase_eq]
    norm_num [total_impact_raw, freq_impact, wait_impact, coverage_impact, cost_impact,
      integration_impact, ELASTICITIES, apply_diminishing, truncQ, abs_of_nonneg,
      abs_of_nonpos]
  refine ⟨h1, h2, ?_⟩
  rw [h1, h2]
  decide

/-- C4 (amended): `new_ridership` is always `current_ridership *
(1 + clamped total_impact)` truncated toward zero, and
`absolute_increase` is `current_ridership * clamped total_impact`
truncated toward zero; whenever the five improvement percentages are
nonnegative (so the clamped total impact is nonnegative) the two
truncations are compatible and `absolute_increase = new_ridership -
current_ridership` as the original claim states. -/
theorem C4_projection (p : Params)
    (h1 : 0 ≤ p.freq_improvement) (h2 : 0 ≤ p.wait_reduction)
    (h3 : 0 ≤ p.coverage_improvement) (h4 : 0 ≤ p.cost_reduction)
    (h5 : 0 ≤ p.integration_improvement) :
    (calculate_ridership_impact p).new_ridership =
      truncQ ((p.current_ridership : ℚ) * (1 + apply_diminishing (total_impact_raw p))) ∧
    (calculate_ridership_impact p).absolute_increase =
      truncQ ((p.current_ridership : ℚ) * apply_diminishing (total_impact_raw p)) ∧
    (calculate_ridership_impact p).absolute_increase =
      (calculate_ridership_impact p).new_ridership - p.current_ridership := by
  have ht : 0 ≤ apply_diminishing (total_impact_raw p) :=
    apply_diminishing_nonneg (total_impact_raw_nonneg p h1 h2 h3 h4 h5)
  have habs : (calculate_ridership_impact p).absolute_increase =
      truncQ ((p.current_ridership : ℚ) * apply_diminishing (total_impact_raw p)) := by
    rw [calc_absolute_increase_eq]
    congr 1
    ring
  refine ⟨calc_new_ridership_eq p, habs, ?_⟩
  rw [habs, calc_new_ridership_eq, truncQ_mul_one_add _ _ ht]
  omega

/-- Witness for C4 (amended) at the default inputs: the projected
175550 = trunc(100000 * 1.7555) and the increase identity holds. -/
theorem C4_projection_witness :
    (calculate_ridership_impact exampleParams).new_ridership =
      truncQ ((exampleParams.current_ridership : ℚ) *
        (1 + apply_diminishing (total_impact_raw exampleParams))) ∧
    (calculate_ridership_impact exampleParams).absolute_increase =
      truncQ ((exampleParams.current_ridership : ℚ) *
        apply_diminishing (total_impact_raw exampleParams)) ∧
    (calculate_ridership_impact exampleParams).absolute_increase =
      (calculate_ridership_impact exampleParams).new_ridership -
        exampleParams.current_ridership :=
  C4_projection exampleParams (by decide) (by decide) (by decide) (by decide) (by decide)

/-- C6: the reported total percentage is monotone in each of the five
improvement levers, the others held fixed. -/
theorem C6_monotone (p : Params) (d : ℤ) (hd : 0 ≤ d) :
    (calculate_ridership_impact p).total_percentage ≤
      (calculate_ridership_impact
        { p with freq_improvement := p.freq_improvement + d }).total_percentage ∧
    (calculate_ridership_impact p).total_percentage ≤
      (calculate_ridership_impact
        { p with wait_reduction := p.wait_reduction + d }).total_percentage ∧
    (calculate_ridership_impact p).total_percentage ≤
      (calculate_ridership_impact
        { p with coverage_improvement := p.coverage_improvement + d }).total_percentage ∧
    (calculate_ridership_impact p).total_percentage ≤
      (calculate_ridership_impact
        { p with cost_reduction := p.cost_reduction + d }).total_percentage ∧
    (calculate_ridership_impact p).total_percentage ≤
      (calculate_ridership_impact
        { p with integration_improvement := p.integration_improvement + d }).total_percentage := by
  have hd' : (0 : ℚ) ≤ (d : ℚ) := by exact_mod_cast hd
  obtain ⟨cr, bf, bw, fi, wr, ci, cs, ii⟩ := p
  refine ⟨total_percentage_mono_of_raw_le ?_, total_percentage_mono_of_raw_le ?_,
    total_percentage_mono_of_raw_le ?_, total_percentage_mono_of_raw_le ?_,
    total_percentage_mono_of_raw_le ?_⟩ <;>
  · norm_num [total_impact_raw, freq_impact, wait_impact, coverage_impact, cost_impact,
      integration_impact, ELASTICITIES, abs_of_nonneg, abs_of_nonpos]
    linarith

/-- Witness for C6 at the default inputs with a 10-point increase. -/
theorem C6_monotone_witness :
    (calculate_ridership_impact exampleParams).total_percentage ≤
      (calculate_ridership_impact
        { exampleParams with
          freq_improvement := exampleParams.freq_improvement + 10 }).total_percentage ∧
    (calculate_ridership_impact exampleParams).total_percentage ≤
      (calculate_ridership_impact
        { exampleParams with
          wait_reduction := exampleParams.wait_reduction + 10 }).total_percentage ∧
    (calculate_ridership_impact exampleParams).total_percentage ≤
      (calculate_ridership_impact
        { exampleParams with
          coverage_improvement := exampleParams.coverage_improvement + 10 }).total_percentage ∧
    (calculate_ridership_impact exampleParams).total_percentage ≤
      (calculate_ridership_impact
        { exampleParams with
          cost_reduction := exampleParams.cost_reduction + 10 }).total_percentage ∧
    (calculate_ridership_impact exampleParams).total_percentage ≤
      (calculate_ridership_impact
        { exampleParams with
          integration_improvement :=
            exampleParams.integration_improvement + 10 }).total_percentage :=
  C6_monotone exampleParams 10 (by decide)

/-- C7: every non-Current scenario row carries
`percentage_increase = uniform_improvement_pct * 0.4` and
`ridership = trunc(current_ridership * (1 + uniform_improvement_pct *
0.004))`; with current ridership 100000 the Basic (15%) row is
(6.0, 106000) and the Comprehensive (60%) row is (24.0, 124000). -/
theorem C7_scenario_formula :
    (∀ p : Params,
      (scenario_results p).tail =
        [⟨"Basic Improvement",
            truncQ ((p.current_ridership : ℚ) * (1 + (15 : ℚ) * 0.004)), (15 : ℚ) * 0.4⟩,
         ⟨"Moderate Improvement",
            truncQ ((p.current_ridership : ℚ) * (1 + (35 : ℚ) * 0.004)), (35 : ℚ) * 0.4⟩,
         ⟨"Comprehensive Improvement",
            truncQ ((p.current_ridership : ℚ) * (1 + (60 : ℚ) * 0.004)), (60 : ℚ) * 0.4⟩]) ∧
    scenario_results exampleParams =
      [⟨"Current", 100000, 0⟩, ⟨"Basic Improvement", 106000, 6⟩,
       ⟨"Moderate Improvement", 114000, 14⟩, ⟨"Comprehensive Improvement", 124000, 24⟩] := by
  constructor
  · intro p
    simp [scenario_results, scenarios, scenario_row]
  · simp [scenario_results, scenarios, scenario_row, exampleParams]
    norm_num [truncQ]

/-- C8: the Current row of the scenario comparison is
`(current_ridership, 0)` verbatim, and any two parameter sets with the
same current ridership — whatever their live slider values — produce the
identical Current row. -/
theorem C8_current_row (p q : Params)
    (h : p.current_ridership = q.current_ridership) :
    (scenario_results p).head? = some ⟨"Current", p.current_ridership, 0⟩ ∧
    (scenario_results p).head? = (scenario_results q).head? := by
  constructor
  · simp [scenario_results, scenarios, scenario_row]
  · simp [scenario_results, scenarios, scenario_row, h]

/-- Witness for C8: all-zero sliders versus the default sliders, both at
ridership 100000, give the same Current row. -/
theorem C8_current_row_witness :
    (scenario_results ⟨100000, 4, 12, 0, 0, 0, 0, 0⟩).head? =
      some ⟨"Current", (⟨100000, 4, 12, 0, 0, 0, 0, 0⟩ : Params).current_ridership, 0⟩ ∧
    (scenario_results ⟨100000, 4, 12, 0, 0, 0, 0, 0⟩).head? =
      (scenario_results exampleParams).head? :=
  C8_current_row ⟨100000, 4, 12, 0, 0, 0, 0, 0⟩ exampleParams rfl

/-- C9: noninterference of the dead inputs — two parameter sets agreeing
on current ridership and the five improvement percentages but differing
arbitrarily in the two baseline inputs yield identical calculator results
and identical scenario tables. -/
theorem C9_dead_inputs (p q : Params)
    (hcr : p.current_ridership = q.current_ridership)
    (hf : p.freq_improvement = q.freq_improvement)
    (hw : p.wait_reduction = q.wait_reduction)
    (hcov : p.coverage_improvement = q.coverage_improvement)
    (hcost : p.cost_reduction = q.cost_reduction)
    (hq : p.integration_improvement = q.integration_improvement) :
    calculate_ridership_impact p = calculate_ridership_impact q ∧
    scenario_results p = scenario_results q := by
  constructor
  · simp [calculate_ridership_impact, total_impact_raw, freq_impact, wait_impact,
      coverage_impact, cost_impact, integration_impact, hcr, hf, hw, hcov, hcost, hq]
  · simp [scenario_results, scenarios, scenario_row, hcr]

/-- Witness for C9: the default inputs versus the same improvements with
extreme baselines (20 buses/hour, 2 minutes) coincide on both outputs. -/
theorem C9_dead_inputs_witness :
    calculate_ridership_impact exampleParams =
      calculate_ridership_impact ⟨100000, 20, 2, 50, 30, 25, 15, 40⟩ ∧
    scenario_results exampleParams =
      scenario_results ⟨100000, 20, 2, 50, 30, 25, 15, 40⟩ :=
  C9_dead_inputs exampleParams ⟨100000, 20, 2, 50, 30, 25, 15, 40⟩ rfl rfl rfl rfl rfl rfl

/-- C10: with nonnegative current ridership and nonnegative improvement
percentages (the stated input ranges), every per-factor percentage in the
result is nonnegative, the total percentage is nonnegative, new ridership
is at least current ridership, and the absolute increase is nonnegative. -/
theorem C10_nonneg_invariant (p : Params) (hcr : 0 ≤ p.current_ridership)
    (h1 : 0 ≤ p.freq_improvement) (h2 : 0 ≤ p.wait_reduction)
    (h3 : 0 ≤ p.coverage_improvement) (h4 : 0 ≤ p.cost_reduction)
    (h5 : 0 ≤ p.integration_improvement) :
    0 ≤ (calculate_ridership_impact p).freq_impact ∧
    0 ≤ (calculate_ridership_impact p).wait_impact ∧
    0 ≤ (calculate_ridership_impact p).coverage_impact ∧
    0 ≤ (calculate_ridership_impact p).cost_impact ∧
    0 ≤ (calculate_ridership_impact p).integration_impact ∧
    0 ≤ (calculate_ridership_impact p).total_percentage ∧
    p.current_ridership ≤ (calculate_ridership_impact p).new_ridership ∧
    0 ≤ (calculate_ridership_impact p).absolute_increase := by
  have hcr' : (0 : ℚ) ≤ (p.current_ridership : ℚ) := by exact_mod_cast hcr
  have ht : 0 ≤ apply_diminishing (total_impact_raw p) :=
    apply_diminishing_nonneg (total_impact_raw_nonneg p h1 h2 h3 h4 h5)
  have hprod : (0 : ℚ) ≤ (p.current_ridership : ℚ) * apply_diminishing (total_impact_raw p) :=
    mul_nonneg hcr' ht
  have harg : (0 : ℚ) ≤
      (p.current_ridership : ℚ) * (1 + apply_diminishing (total_impact_raw p)) :=
    mul_nonneg hcr' (by linarith)
  refine ⟨?_, ?_, ?_, ?_, ?_, ?_, ?_, ?_⟩
  · rw [calc_freq_eq]
    exact mul_nonneg (freq_impact_nonneg p h1) (by norm_num)
  · rw [calc_wait_eq]
    exact mul_nonneg (wait_impact_nonneg p h2) (by norm_num)
  · rw [calc_coverage_eq]
    exact mul_nonneg (coverage_impact_nonneg p h3) (by norm_num)
  · rw [calc_cost_eq]
    exact mul_nonneg (cost_impact_nonneg p h4) (by norm_num)
  · rw [calc_integration_eq]
    exact mul_nonneg (integration_impact_nonneg p h5) (by norm_num)
  · rw [calc_total_percentage_eq]
    exact mul_nonneg ht (by norm_num)
  · rw [calc_new_ridership_eq, truncQ_of_nonneg harg]
    refine Int.le_floor.mpr ?_
    nlinarith
  · rw [calc_absolute_increase_eq]
    have hdiff : (p.current_ridership : ℚ) *
          (1 + apply_diminishing (total_impact_raw p)) - (p.current_ridership : ℚ) =
        (p.current_ridership : ℚ) * apply_diminishing (total_impact_raw p) := by
      ring
    rw [hdiff, truncQ_of_nonneg hprod]
    exact Int.le_floor.mpr (by exact_mod_cast hprod)

/-- Witness for C10 at the default, in-range inputs. -/
theorem C10_nonneg_invariant_witness :
    0 ≤ (calculate_ridership_impact exampleParams).freq_impact ∧
    0 ≤ (calculate_ridership_impact exampleParams).wait_impact ∧
    0 ≤ (calculate_ridership_impact exampleParams).coverage_impact ∧
    0 ≤ (calculate_ridership_impact exampleParams).cost_impact ∧
    0 ≤ (calculate_ridership_impact exampleParams).integration_impact ∧
    0 ≤ (calculate_ridership_impact exampleParams).total_percentage ∧
    exampleParams.current_ridership ≤ (calculate_ridership_impact exampleParams).new_ridership ∧
    0 ≤ (calculate_ridership_impact exampleParams).absolute_increase :=
  C10_nonneg_invariant exampleParams (by decide) (by decide) (by decide) (by decide)
    (by decide) (by decide)

end DMRC
